import Mathlib

/-!
Shallow embedding of the controller core of cement2
(src/src/cement2/cement2/core/controller.py): command collection
(CementBaseController._collect), command resolution inside setup, dispatch,
and help text generation.  Python dicts are embedded as insertion-ordered
association lists; the Controller Registry (the external handler service
consumed through handler.list and handler.get) is passed in as an explicit
sequence of controller descriptors, following the spec of the registry
service interface.
-/

/-- Command registry entry: the func_dict record built in
CementBaseController._collect (controller.py lines 198-204 and 225-231). -/
structure FuncDict where
  controller : String
  label : String
  help : String
  aliases : List String
  hide : Bool
deriving DecidableEq

/-- An exposed method of a controller as annotated by the expose decorator
(controller.py lines 59-88): label is the function name, plus help, aliases
and hide metadata attached to the function object. -/
structure ExposedFunc where
  label : String
  help : String
  aliases : List String
  hide : Bool
deriving DecidableEq

/-- The inherited CementBaseController.default method (controller.py lines
170-172), decorated with expose, hide true and help "default command". -/
def defaultExposed : ExposedFunc :=
  ⟨"default", "default command", [], true⟩

/-- Static data of one registered controller class: the meta attributes
(controller.py lines 101-107) together with the dir-ordered list of exposed
members discovered at lines 192-197.  The stacked_on field distinguishes the
meta attribute being absent (none), present with value None (some none), and
present with a label (some (some l)), because _collect line 219 tests
hasattr before line 236 compares the value. -/
structure ControllerClass where
  label : String
  description : String
  stacked_on : Option (Option String)
  hide : Bool
  members : List ExposedFunc
deriving DecidableEq

/-- The Python test argv[0].startswith("-") at controller.py line 127: for
the one-character pattern this holds exactly when the string is nonempty and
its first character is the dash. -/
def startsWithDash (s : String) : Bool :=
  match s.toList with
  | [] => false
  | c :: _ => c = '-'

/-- Python dict assignment d[k] = v on an insertion-ordered association
list: the first binding of an existing key is updated in place, a new key is
appended at the end. -/
def dinsert : List (String × FuncDict) → String → FuncDict → List (String × FuncDict)
  | [], k, v => [(k, v)]
  | p :: rest, k, v => if p.1 = k then (k, v) :: rest else p :: dinsert rest k v

/-- Python dict lookup d[k], none when the key is absent. -/
def dget : List (String × FuncDict) → String → Option FuncDict
  | [], _ => none
  | p :: rest, k => if p.1 = k then some p.2 else dget rest k

/-- The three maps rebuilt by _collect (controller.py lines 179-181). -/
structure CollectResult where
  exposed : List (String × FuncDict)
  visible : List (String × FuncDict)
  hidden : List (String × FuncDict)
deriving DecidableEq

/-- Processing of one exposed member of the controller itself
(controller.py lines 196-210): record it in exposed; a hidden function goes
to hidden, a visible one goes to visible unless the controller meta itself
is hidden. -/
def collectMember (selfc : ControllerClass) (r : CollectResult) (f : ExposedFunc) :
    CollectResult :=
  let fd : FuncDict := ⟨selfc.label, f.label, f.help, f.aliases, f.hide⟩
  let e := dinsert r.exposed f.label fd
  if f.hide then ⟨e, r.visible, dinsert r.hidden f.label fd⟩
  else if selfc.hide then ⟨e, r.visible, r.hidden⟩
  else ⟨e, dinsert r.visible f.label fd, r.hidden⟩

/-- Collection of the controller's own commands, step 2 of the Collection
Algorithm (controller.py lines 190-210), starting from the maps reset at
lines 179-181. -/
def collectOwn (selfc : ControllerClass) : CollectResult :=
  selfc.members.foldl (collectMember selfc) ⟨[], [], []⟩

/-- The visible map read off a freshly instantiated controller at
controller.py line 246: controller() runs only CementBaseController's
constructor (lines 111-120), which sets self.visible to the empty dict, and
_collect is never invoked on that fresh instance, so the map is empty. -/
def freshInstanceVisible (_ : ControllerClass) : List (String × FuncDict) :=
  []

/-- Merging one entry of a stacked controller's visible map
(controller.py lines 247-253). -/
def mergeStackedEntry (c : ControllerClass) (r : CollectResult) (p : String × FuncDict) :
    CollectResult :=
  let e := dinsert r.exposed p.1 p.2
  if p.2.hide then ⟨e, r.visible, dinsert r.hidden p.1 p.2⟩
  else if c.hide then ⟨e, r.visible, r.hidden⟩
  else ⟨e, dinsert r.visible p.1 p.2, r.hidden⟩

/-- Processing of one other registered controller, step 3 of the Collection
Algorithm (controller.py lines 213-253): skip the controller itself; when
the stacked_on attribute is absent, synthesize a command entry for the
controller unless it is named base or hidden; when stacked_on equals this
controller's label, merge the fresh instance's visible map. -/
def collectOther (selfc : ControllerClass) (r : CollectResult) (c : ControllerClass) :
    CollectResult :=
  if c.label = selfc.label then r
  else
    match c.stacked_on with
    | none =>
      if c.label = "base" then r
      else if c.hide then r
      else
        let fd : FuncDict := ⟨c.label, c.label, c.description, [], false⟩
        let e := dinsert r.exposed c.label fd
        if c.hide then ⟨e, r.visible, r.hidden⟩
        else ⟨e, dinsert r.visible c.label fd, r.hidden⟩
    | some so =>
      if so = some selfc.label then (freshInstanceVisible c).foldl (mergeStackedEntry c) r
      else r

/-- The full Collection Algorithm CementBaseController._collect
(controller.py lines 174-253): own commands first, then every controller
returned by the registry in order. -/
def collect (selfc : ControllerClass) (registry : List ControllerClass) : CollectResult :=
  registry.foldl (collectOther selfc) (collectOwn selfc)

/-- Runtime state of a controller instance as far as collection and dispatch
observe it: the selected command (initialized to "default" by the
constructor, controller.py line 113) and the three maps. -/
structure ControllerState where
  command : String
  exposed : List (String × FuncDict)
  visible : List (String × FuncDict)
  hidden : List (String × FuncDict)
deriving DecidableEq

/-- The _collect method as a state transformer: lines 179-182 reset the
three maps, which are then rebuilt from the members and the registry alone;
the selected command is untouched. -/
def collectS (selfc : ControllerClass) (registry : List ControllerClass)
    (s : ControllerState) : ControllerState :=
  let r := collect selfc registry
  ⟨s.command, r.exposed, r.visible, r.hidden⟩

/-- The argv-chopping step of setup (controller.py lines 126-136): when the
argument vector is nonempty and its head is not an option token, an exact
key match in exposed consumes the token and selects it; otherwise the first
exposed entry in collection order whose aliases contain the token consumes
it and selects that entry's canonical label; otherwise nothing changes.
Returns the selected command and the remaining argv. -/
def resolveCommand (exposed : List (String × FuncDict)) (command : String)
    (argv : List String) : String × List String :=
  match argv with
  | [] => (command, [])
  | a :: rest =>
    if startsWithDash a then (command, a :: rest)
    else if (dget exposed a).isSome then (a, rest)
    else
      match exposed.find? (fun p => p.2.aliases.contains a) with
      | some p => (p.2.label, rest)
      | none => (command, a :: rest)

/-- Where dispatch invokes the selected method: on the current instance, or
on a fresh instance of the named controller obtained from the registry
(handler.get at controller.py line 167). -/
inductive DispatchTarget where
  | current : DispatchTarget
  | fresh : String → DispatchTarget
deriving DecidableEq

/-- CementBaseController.dispatch (controller.py lines 149-168) as a pure
observer: it returns the unchanged state paired with the invocation it
performs, none when no function is invoked (falsy or unknown command, where
the empty string models a falsy self.command), and some (target, label) when
getattr(target, label)() runs. -/
def dispatch (selfLabel : String) (s : ControllerState) :
    ControllerState × Option (DispatchTarget × String) :=
  if s.command = "" then (s, none)
  else
    match dget s.exposed s.command with
    | none => (s, none)
    | some fd =>
      if fd.controller = selfLabel then (s, some (DispatchTarget.current, fd.label))
      else (s, some (DispatchTarget.fresh fd.controller, fd.label))

/-- Error kinds of the controller core, spec section 7. -/
inductive CementErr where
  | notImplemented : CementErr
deriving DecidableEq

/-- Body of CementBaseController.default (controller.py lines 170-172):
raise NotImplementedError. -/
def defaultBody : Except CementErr Unit :=
  Except.error CementErr.notImplemented

/-- Method bodies available to dispatch when the application does not
override anything: on every controller the method named default is the
inherited CementBaseController.default, and every other exposed method is
application code modelled as returning normally. -/
def baseBodies : String → String → Except CementErr Unit
  | _, "default" => defaultBody
  | _, _ => Except.ok ()

/-- Execution of the invocation chosen by dispatch, running the selected
method body on the chosen controller; nothing runs when dispatch chose no
invocation. -/
def dispatchRun (selfLabel : String) (bodies : String → String → Except CementErr Unit)
    (s : ControllerState) : Except CementErr Unit :=
  match (dispatch selfLabel s).2 with
  | none => Except.ok ()
  | some (DispatchTarget.current, l) => bodies selfLabel l
  | some (DispatchTarget.fresh c, l) => bodies c l

/-- Whether a character is a space or a tab, the whitespace classes of the
dedent margin computation. -/
def isWsChar (c : Char) : Bool :=
  c = ' ' || c = '\t'

/-- Longest common prefix of two character lists. -/
def lcpChars : List Char → List Char → List Char
  | a :: as, b :: bs => if a = b then a :: lcpChars as bs else []
  | _, _ => []

/-- Splitting a character list into its newline-separated lines. -/
def splitLinesChars : List Char → List (List Char)
  | [] => [[]]
  | c :: rest =>
    match splitLinesChars rest with
    | [] => [[c]]
    | h :: t => if c = '\n' then [] :: h :: t else (c :: h) :: t

/-- Joining lines back with newline separators. -/
def joinLinesChars : List (List Char) → List Char
  | [] => []
  | [l] => l
  | l :: ls => l ++ '\n' :: joinLinesChars ls

/-- Modelled from the semantics of the Python standard library function
textwrap.dedent, used at controller.py line 290: lines consisting only of
whitespace are emptied, then the longest common leading whitespace of the
remaining nonempty lines is removed from every line that starts with it. -/
def dedent (text : String) : String :=
  let ls := (splitLinesChars text.toList).map
    (fun l => if l ≠ [] ∧ l.all isWsChar = true then [] else l)
  let contents := ls.filter (fun l => !l.isEmpty)
  let margin : List Char :=
    match contents.map (fun l => l.takeWhile isWsChar) with
    | [] => []
    | i :: is => is.foldl lcpChars i
  let stripped := ls.map
    (fun l => if margin.isPrefixOf l then l.drop margin.length else l)
  String.mk (joinLinesChars stripped)

/-- The help_text property (controller.py lines 265-290): one block per
visible entry in insertion order, the label line with aliases when present,
the indented help line when the help string is nonempty, wrapped into the
dedented template with the commands heading. -/
def help_text (description : String) (visible : List (String × FuncDict)) : String :=
  let cmd_txt := visible.foldl
    (fun acc p =>
      let func := p.2
      let acc :=
        if func.aliases.length > 0 then
          acc ++ "  " ++ func.label ++ " (aliases: " ++
            String.intercalate ", " func.aliases ++ ")\n"
        else acc ++ "  " ++ func.label ++ "\n"
      if func.help ≠ "" then acc ++ "    " ++ func.help ++ "\n\n"
      else acc ++ "\n")
    ""
  dedent (description ++ "\n\ncommands:\n\n" ++ cmd_txt ++ "\n\n        \n        ")

/-- A minimal application base controller that overrides nothing: label
base, the stacked_on attribute present with value None as in
CementBaseController.meta line 106, and the inherited default as only
exposed member. -/
def baseController : ControllerClass :=
  ⟨"base", "Base Controller", some none, false, [defaultExposed]⟩

/-- An exposed command labeled list with aliases ls and l, the scenario of
the alias resolution property. -/
def listCmd : ExposedFunc :=
  ⟨"list", "list stuff", ["ls", "l"], false⟩

/-- A base controller exposing the list command next to the inherited
default, members in dir order. -/
def listCtrl : ControllerClass :=
  ⟨"base", "Base Controller", some none, false, [defaultExposed, listCmd]⟩

/-- The exposed map of listCtrl after collection against a registry holding
only itself. -/
def listExposed : List (String × FuncDict) :=
  (collect listCtrl [listCtrl]).exposed

/-- A visible exposed command named go with empty aliases. -/
def goCmd : ExposedFunc :=
  ⟨"go", "Go somewhere", [], false⟩

/-- A controller stacked onto the base controller, exposing the visible go
command next to the inherited default. -/
def childCtrl : ControllerClass :=
  ⟨"child", "Child Controller", some (some "base"), false, [defaultExposed, goCmd]⟩

/-- A top-level controller whose meta carries the stacked_on attribute with
value None, as any subclass inheriting CementBaseController.meta would. -/
def otherCtrl : ControllerClass :=
  ⟨"other", "Other Controller", some none, false, [defaultExposed]⟩

/-- A registered top-level controller whose label is the string default. -/
def defaultNamedCtrl : ControllerClass :=
  ⟨"default", "Controller named default", none, false, [defaultExposed]⟩

/-- The visible map of the help text generation scenario: exactly one entry
go with empty aliases and help Go somewhere. -/
def goVisible : List (String × FuncDict) :=
  [("go", ⟨"base", "go", "Go somewhere", [], false⟩)]

/-- A top-level controller whose meta lacks the stacked_on attribute
altogether. -/
def topCtrl : ControllerClass :=
  ⟨"top", "Top Controller", none, false, [defaultExposed]⟩

/-- The default-command invariant over the collected maps: the exposed map
holds the inherited hidden default entry at key default, the hidden map
holds the same entry, and the visible map has no entry at that key. -/
def defaultInv (selfc : ControllerClass) (r : CollectResult) : Prop :=
  dget r.exposed "default" = some ⟨selfc.label, "default", "default command", [], true⟩ ∧
  dget r.hidden "default" = some ⟨selfc.label, "default", "default command", [], true⟩ ∧
  dget r.visible "default" = none

theorem dget_dinsert_self (m : List (String × FuncDict)) (k : String) (v : FuncDict) :
    dget (dinsert m k v) k = some v := by
  induction m with
  | nil => simp [dinsert, dget]
  | cons p rest ih =>
    by_cases h : p.1 = k
    · simp [dinsert, dget, h]
    · simp [dinsert, dget, h, ih]

theorem dget_dinsert_ne (m : List (String × FuncDict)) (k k' : String) (v : FuncDict)
    (h : k' ≠ k) : dget (dinsert m k' v) k = dget m k := by
  induction m with
  | nil => simp [dinsert, dget, h]
  | cons p rest ih =>
    by_cases hp : p.1 = k'
    · simp [dinsert, dget, hp, h]
    · by_cases hk : p.1 = k <;> simp [dinsert, dget, hp, hk, Ne.symm h, ih]

/-- Claim C9: running the Collection Algorithm twice in succession on the
same controller with an unchanged registry yields the same state as running
it once, because _collect resets the three maps before rebuilding them from
the members and the registry alone. -/
theorem collect_idempotent (selfc : ControllerClass) (registry : List ControllerClass)
    (s : ControllerState) :
    collectS selfc registry (collectS selfc registry s) = collectS selfc registry s := rfl

/-- Claim C2: with an exposed command labeled list carrying aliases ls and l,
argv [l, --foo] consumes one token and selects list, argv [list] consumes
the token and selects list, and argv [lx] consumes nothing and leaves the
selected command at the sentinel default. -/
theorem alias_resolution_list_example :
    resolveCommand listExposed "default" ["l", "--foo"] = ("list", ["--foo"]) ∧
    resolveCommand listExposed "default" ["list"] = ("list", []) ∧
    resolveCommand listExposed "default" ["lx"] = ("default", ["lx"]) := by
  decide

/-- Claim C3: when the remaining argv is empty or its first token starts
with an option dash, command resolution consumes nothing and the selected
command stays the sentinel default, for every exposed map. -/
theorem resolve_skips_option_or_empty (exposed : List (String × FuncDict))
    (argv : List String)
    (h : ∀ a rest, argv = a :: rest → startsWithDash a = true) :
    resolveCommand exposed "default" argv = ("default", argv) := by
  cases argv with
  | nil => rfl
  | cons a rest => simp [resolveCommand, h a rest rfl]

theorem resolve_skips_option_or_empty_witness :
    resolveCommand listExposed "default" ["-x"] = ("default", ["-x"]) ∧
    resolveCommand listExposed "default" [] = ("default", []) := by
  constructor
  · exact resolve_skips_option_or_empty listExposed ["-x"]
      (by intro a rest hh; cases hh; decide)
  · exact resolve_skips_option_or_empty listExposed []
      (by intro a rest hh; cases hh)

/-- Claim C1, evaluation at the failing input: the child controller is
stacked on base and exposes the visible command go, yet after the base
controller's collection the command is in neither the visible nor the
exposed map, because line 246 of controller.py reads the visible map of a
freshly constructed instance, which the constructor always sets to the
empty dict. -/
theorem stacked_child_commands_never_merged :
    childCtrl.stacked_on = some (some baseController.label) ∧
    goCmd.hide = false ∧ (goCmd ∈ childCtrl.members) = True ∧
    dget (collect baseController [baseController, childCtrl]).visible "go" = none ∧
    dget (collect baseController [baseController, childCtrl]).exposed "go" = none := by
  decide

/-- Claim C4, counterexample: a controller whose meta carries the stacked_on
attribute with value None satisfies every other condition of the claim, yet
collection synthesizes no entry for it, because line 219 of controller.py
tests attribute presence, not the value. -/
theorem stacked_on_none_not_exposed :
    otherCtrl.stacked_on = some none ∧ otherCtrl.hide = false ∧
    otherCtrl.label ≠ "base" ∧ otherCtrl.label ≠ baseController.label ∧
    dget (collect baseController [baseController, otherCtrl]).exposed "other" = none ∧
    dget (collect baseController [baseController, otherCtrl]).visible "other" = none := by
  decide

/-- Claim C5: when the selected command is not a key of the exposed map,
dispatch performs no invocation, leaves the state unchanged, and execution
returns normally whatever the method bodies are; the miss is only a debug
log in the source. -/
theorem dispatch_unknown_command_noop (selfLabel : String) (s : ControllerState)
    (h : dget s.exposed s.command = none) :
    dispatch selfLabel s = (s, none) ∧
    ∀ bodies, dispatchRun selfLabel bodies s = Except.ok () := by
  have hd : dispatch selfLabel s = (s, none) := by
    unfold dispatch
    by_cases hc : s.command = ""
    · simp [hc]
    · simp [hc, h]
  exact ⟨hd, fun bodies => by simp [dispatchRun, hd]⟩

theorem dispatch_unknown_command_noop_witness :
    dispatch "base" ⟨"bogus", listExposed, [], []⟩ =
      (⟨"bogus", listExposed, [], []⟩, none) :=
  (dispatch_unknown_command_noop "base" ⟨"bogus", listExposed, [], []⟩ (by decide)).1

/-- Claim C7: when the selected command is a key of the exposed map,
dispatch invokes the entry's method on the current instance if the entry's
controller label equals the current controller's label, and on a fresh
instance of the named controller obtained from the registry otherwise. -/
theorem dispatch_target_selection (selfLabel : String) (s : ControllerState)
    (fd : FuncDict) (hc : s.command ≠ "") (h : dget s.exposed s.command = some fd) :
    dispatch selfLabel s =
      (s, some (if fd.controller = selfLabel then DispatchTarget.current
                else DispatchTarget.fresh fd.controller, fd.label)) := by
  unfold dispatch
  rw [if_neg hc, h]
  by_cases ht : fd.controller = selfLabel
  · simp [ht]
  · simp [ht]

theorem dispatch_target_selection_witness :
    dispatch "base" ⟨"list", listExposed, [], []⟩ =
      (⟨"list", listExposed, [], []⟩, some (DispatchTarget.current, "list")) ∧
    dispatch "other" ⟨"list", listExposed, [], []⟩ =
      (⟨"list", listExposed, [], []⟩, some (DispatchTarget.fresh "base", "list")) := by
  constructor
  · exact (dispatch_target_selection "base" ⟨"list", listExposed, [], []⟩
      ⟨"base", "list", "list stuff", ["ls", "l"], false⟩ (by decide) (by decide)).trans
      (by decide)
  · exact (dispatch_target_selection "other" ⟨"list", listExposed, [], []⟩
      ⟨"base", "list", "list stuff", ["ls", "l"], false⟩ (by decide) (by decide)).trans
      (by decide)

/-- Claim C6: dispatching the base controller with the sentinel command
default, when the application overrides nothing, runs the inherited default
method and fails with the NotImplemented error kind. -/
theorem base_default_dispatch_not_implemented :
    dispatchRun "base" baseBodies
      ⟨"default", (collect baseController [baseController]).exposed,
        (collect baseController [baseController]).visible,
        (collect baseController [baseController]).hidden⟩ =
      Except.error CementErr.notImplemented := by
  rfl

/-- Claim C8: for a visible map holding exactly the entry go with empty
aliases and help Go somewhere, the generated help text contains the line of
two spaces and go, immediately followed by the indented help line and a
blank line. -/
theorem help_text_go_block :
    ∃ pre post,
      help_text "Desc" goVisible = pre ++ "\n  go\n    Go somewhere\n\n" ++ post :=
  ⟨"Desc\n\ncommands:\n", "\n\n\n", by decide⟩

/-- Claim C10, counterexample: registering a top-level non-hidden controller
labeled default makes collection overwrite the inherited hidden default
entry with a visible synthesized one, so the exposed entry at key default is
not marked hidden and does appear in the visible map. -/
theorem default_entry_overwritten_by_controller_named_default :
    dget (collect baseController [baseController, defaultNamedCtrl]).exposed "default" =
      some ⟨"default", "default", "Controller named default", [], false⟩ ∧
    dget (collect baseController [baseController, defaultNamedCtrl]).visible "default" =
      some ⟨"default", "default", "Controller named default", [], false⟩ := by
  decide

theorem collectOther_skip_self (selfc : ControllerClass) (r : CollectResult)
    (c : ControllerClass) (h : c.label = selfc.label) : collectOther selfc r c = r := by
  unfold collectOther
  simp [h]

theorem collectOther_stacked (selfc : ControllerClass) (r : CollectResult)
    (c : ControllerClass) (h : c.stacked_on ≠ none) : collectOther selfc r c = r := by
  unfold collectOther
  cases hso : c.stacked_on with
  | none => exact absurd hso h
  | some so =>
    by_cases h1 : c.label = selfc.label
    · simp [h1]
    · by_cases h4 : so = some selfc.label <;> simp [h1, h4, freshInstanceVisible]

theorem collectOther_hide (selfc : ControllerClass) (r : CollectResult)
    (c : ControllerClass) (h : c.hide = true) : collectOther selfc r c = r := by
  unfold collectOther
  by_cases h1 : c.label = selfc.label
  · simp [h1]
  · rw [if_neg h1]
    cases hso : c.stacked_on with
    | none =>
      by_cases h2 : c.label = "base"
      · simp [h2]
      · simp [h2, h]
    | some so =>
      by_cases h4 : so = some selfc.label <;> simp [h4, freshInstanceVisible]

theorem collectOther_preserves (selfc : ControllerClass) (r : CollectResult)
    (c : ControllerClass) (k : String) (hk : c.label ≠ k) :
    dget (collectOther selfc r c).exposed k = dget r.exposed k ∧
    dget (collectOther selfc r c).visible k = dget r.visible k ∧
    (collectOther selfc r c).hidden = r.hidden := by
  unfold collectOther
  by_cases h1 : c.label = selfc.label
  · simp [h1]
  · rw [if_neg h1]
    cases hso : c.stacked_on with
    | none =>
      by_cases h2 : c.label = "base"
      · simp [h2]
      · rw [if_neg h2]
        by_cases h3 : c.hide
        · simp [h3]
        · simp [h3, dget_dinsert_ne _ _ _ _ hk]
    | some so =>
      by_cases h4 : so = some selfc.label <;> simp [h4, freshInstanceVisible]

theorem collectOther_preserves_default (selfc : ControllerClass) (r : CollectResult)
    (c : ControllerClass)
    (hc : c.label = "default" →
      c.label = selfc.label ∨ c.stacked_on ≠ none ∨ c.hide = true) :
    dget (collectOther selfc r c).exposed "default" = dget r.exposed "default" ∧
    dget (collectOther selfc r c).visible "default" = dget r.visible "default" ∧
    (collectOther selfc r c).hidden = r.hidden := by
  by_cases hk : c.label = "default"
  · rcases hc hk with h1 | h2 | h3
    · rw [collectOther_skip_self selfc r c h1]
      exact ⟨rfl, rfl, rfl⟩
    · rw [collectOther_stacked selfc r c h2]
      exact ⟨rfl, rfl, rfl⟩
    · rw [collectOther_hide selfc r c h3]
      exact ⟨rfl, rfl, rfl⟩
  · exact collectOther_preserves selfc r c "default" hk

theorem foldl_collectOther_preserves (selfc : ControllerClass) (k : String)
    (l : List ControllerClass) (r : CollectResult) (hl : ∀ c ∈ l, c.label ≠ k) :
    dget (l.foldl (collectOther selfc) r).exposed k = dget r.exposed k ∧
    dget (l.foldl (collectOther selfc) r).visible k = dget r.visible k := by
  induction l generalizing r with
  | nil => exact ⟨rfl, rfl⟩
  | cons c cs ih =>
    have h1 := collectOther_preserves selfc r c k (hl c (List.mem_cons_self c cs))
    have h2 := ih (collectOther selfc r c) (fun d hd => hl d (List.mem_cons_of_mem c hd))
    exact ⟨h2.1.trans h1.1, h2.2.trans h1.2.1⟩

theorem foldl_collectOther_default_inv (selfc : ControllerClass)
    (l : List ControllerClass) (r : CollectResult)
    (hl : ∀ c ∈ l, c.label = "default" →
      c.label = selfc.label ∨ c.stacked_on ≠ none ∨ c.hide = true)
    (hI : defaultInv selfc r) : defaultInv selfc (l.foldl (collectOther selfc) r) := by
  induction l generalizing r with
  | nil => exact hI
  | cons c cs ih =>
    have h1 := collectOther_preserves_default selfc r c (hl c (List.mem_cons_self c cs))
    refine ih (collectOther selfc r c) (fun d hd => hl d (List.mem_cons_of_mem c hd)) ?_
    exact ⟨h1.1.trans hI.1, (congrArg (fun m => dget m "default") h1.2.2).trans hI.2.1,
      h1.2.1.trans hI.2.2⟩

theorem collectMember_visible_default (selfc : ControllerClass) (r : CollectResult)
    (f : ExposedFunc) (hf : f.label = "default" → f = defaultExposed)
    (hv : dget r.visible "default" = none) :
    dget (collectMember selfc r f).visible "default" = none := by
  by_cases hl : f.label = "default"
  · rw [hf hl]
    unfold collectMember
    simp [defaultExposed]
    exact hv
  · unfold collectMember
    by_cases hh : f.hide
    · simp [hh]
      exact hv
    · by_cases hs : selfc.hide
      · simp [hh, hs]
        exact hv
      · simp [hh, hs, dget_dinsert_ne _ _ _ _ hl]
        exact hv

theorem foldl_collectMember_visible_default (selfc : ControllerClass)
    (l : List ExposedFunc) (r : CollectResult)
    (hl : ∀ f ∈ l, f.label = "default" → f = defaultExposed)
    (hv : dget r.visible "default" = none) :
    dget (l.foldl (collectMember selfc) r).visible "default" = none := by
  induction l generalizing r with
  | nil => exact hv
  | cons f fs ih =>
    exact ih (collectMember selfc r f) (fun g hg => hl g (List.mem_cons_of_mem f hg))
      (collectMember_visible_default selfc r f (hl f (List.mem_cons_self f fs)) hv)

theorem collectMember_default (selfc : ControllerClass) (r : CollectResult)
    (hv : dget r.visible "default" = none) :
    defaultInv selfc (collectMember selfc r defaultExposed) := by
  unfold collectMember defaultInv
  simp [defaultExposed, dget_dinsert_self]
  exact hv

theorem collectMember_default_inv (selfc : ControllerClass) (r : CollectResult)
    (f : ExposedFunc) (hf : f.label = "default" → f = defaultExposed)
    (hI : defaultInv selfc r) : defaultInv selfc (collectMember selfc r f) := by
  by_cases hl : f.label = "default"
  · rw [hf hl]
    exact collectMember_default selfc r hI.2.2
  · unfold collectMember defaultInv
    by_cases hh : f.hide
    · simp [hh, dget_dinsert_ne _ _ _ _ hl]
      exact ⟨hI.1, hI.2.1, hI.2.2⟩
    · by_cases hs : selfc.hide
      · simp [hh, hs, dget_dinsert_ne _ _ _ _ hl]
        exact ⟨hI.1, hI.2.1, hI.2.2⟩
      · simp [hh, hs, dget_dinsert_ne _ _ _ _ hl]
        exact ⟨hI.1, hI.2.1, hI.2.2⟩

theorem foldl_collectMember_default_inv (selfc : ControllerClass)
    (l : List ExposedFunc) (r : CollectResult)
    (hl : ∀ f ∈ l, f.label = "default" → f = defaultExposed)
    (hI : defaultInv selfc r) :
    defaultInv selfc (l.foldl (collectMember selfc) r) := by
  induction l generalizing r with
  | nil => exact hI
  | cons f fs ih =>
    exact ih (collectMember selfc r f) (fun g hg => hl g (List.mem_cons_of_mem f hg))
      (collectMember_default_inv selfc r f (hl f (List.mem_cons_self f fs)) hI)

theorem collectOwn_default (selfc : ControllerClass) (pre post : List ExposedFunc)
    (hm : selfc.members = pre ++ defaultExposed :: post)
    (hpre : ∀ f ∈ pre, f.label = "default" → f = defaultExposed)
    (hpost : ∀ f ∈ post, f.label = "default" → f = defaultExposed) :
    defaultInv selfc (collectOwn selfc) := by
  unfold collectOwn
  rw [hm, List.foldl_append, List.foldl_cons]
  have hv : dget (pre.foldl (collectMember selfc) ⟨[], [], []⟩).visible "default" = none :=
    foldl_collectMember_visible_default selfc pre ⟨[], [], []⟩ hpre rfl
  exact foldl_collectMember_default_inv selfc post _ hpost
    (collectMember_default selfc _ hv)

/-- Claim C4 as amended: for every registered controller C other than the
collecting one whose meta lacks the stacked_on attribute altogether, unless
its label is base or it is hidden, and provided no later registry entry
reuses its label, collection inserts into both the exposed and the visible
map a synthesized entry keyed by its label, with help text equal to its
description, empty aliases, not hidden, and controller label equal to its
own label. -/
theorem toplevel_controller_exposed (selfc C : ControllerClass)
    (pre post : List ControllerClass)
    (hC : C.stacked_on = none) (hbase : C.label ≠ "base") (hhide : C.hide = false)
    (hself : C.label ≠ selfc.label)
    (hpost : ∀ D ∈ post, D.label ≠ C.label) :
    dget (collect selfc (pre ++ C :: post)).exposed C.label =
      some ⟨C.label, C.label, C.description, [], false⟩ ∧
    dget (collect selfc (pre ++ C :: post)).visible C.label =
      some ⟨C.label, C.label, C.description, [], false⟩ := by
  unfold collect
  rw [List.foldl_append, List.foldl_cons]
  have hstep :
      dget (collectOther selfc (pre.foldl (collectOther selfc) (collectOwn selfc)) C).exposed
        C.label = some ⟨C.label, C.label, C.description, [], false⟩ ∧
      dget (collectOther selfc (pre.foldl (collectOther selfc) (collectOwn selfc)) C).visible
        C.label = some ⟨C.label, C.label, C.description, [], false⟩ := by
    unfold collectOther
    rw [if_neg hself, hC]
    simp [hbase, hhide, dget_dinsert_self]
  have hpres := foldl_collectOther_preserves selfc C.label post
    (collectOther selfc (pre.foldl (collectOther selfc) (collectOwn selfc)) C) hpost
  exact ⟨hpres.1.trans hstep.1, hpres.2.trans hstep.2⟩

theorem toplevel_controller_exposed_witness :
    dget (collect baseController [baseController, topCtrl]).exposed "top" =
      some ⟨"top", "top", "Top Controller", [], false⟩ ∧
    dget (collect baseController [baseController, topCtrl]).visible "top" =
      some ⟨"top", "top", "Top Controller", [], false⟩ :=
  toplevel_controller_exposed baseController topCtrl [baseController] []
    rfl (by decide) rfl (by decide) (by intro D hD; cases hD)

/-- Claim C10 as amended: for every controller whose member list contains
the inherited default method and no other member named default, provided no
other registered controller is a non-hidden top-level controller labeled
default, collection leaves the exposed map with the hidden inherited entry
at key default, mirrors it in the hidden map, keeps it out of the visible
map, and a dispatch whose selected command is the sentinel default finds it
and invokes it on the current instance. -/
theorem default_entry_invariant (selfc : ControllerClass)
    (registry : List ControllerClass) (pre post : List ExposedFunc)
    (hm : selfc.members = pre ++ defaultExposed :: post)
    (hpre : ∀ f ∈ pre, f.label = "default" → f = defaultExposed)
    (hpost : ∀ f ∈ post, f.label = "default" → f = defaultExposed)
    (hreg : ∀ c ∈ registry, c.label = "default" →
      c.label = selfc.label ∨ c.stacked_on ≠ none ∨ c.hide = true) :
    dget (collect selfc registry).exposed "default" =
      some ⟨selfc.label, "default", "default command", [], true⟩ ∧
    dget (collect selfc registry).hidden "default" =
      some ⟨selfc.label, "default", "default command", [], true⟩ ∧
    dget (collect selfc registry).visible "default" = none ∧
    (dispatch selfc.label
      ⟨"default", (collect selfc registry).exposed, (collect selfc registry).visible,
        (collect selfc registry).hidden⟩).2 =
      some (DispatchTarget.current, "default") := by
  have hI : defaultInv selfc (collect selfc registry) :=
    foldl_collectOther_default_inv selfc registry (collectOwn selfc) hreg
      (collectOwn_default selfc pre post hm hpre hpost)
  refine ⟨hI.1, hI.2.1, hI.2.2, ?_⟩
  unfold dispatch
  rw [if_neg (by simp : ¬("default" = ""))]
  simp only [hI.1]
  simp

theorem default_entry_invariant_witness :
    dget (collect baseController [baseController]).exposed "default" =
      some ⟨"base", "default", "default command", [], true⟩ ∧
    dget (collect baseController [baseController]).hidden "default" =
      some ⟨"base", "default", "default command", [], true⟩ ∧
    dget (collect baseController [baseController]).visible "default" = none ∧
    (dispatch "base"
      ⟨"default", (collect baseController [baseController]).exposed,
        (collect baseController [baseController]).visible,
        (collect baseController [baseController]).hidden⟩).2 =
      some (DispatchTarget.current, "default") :=
  default_entry_invariant baseController [baseController] [] [] rfl
    (by intro f hf; cases hf) (by intro f hf; cases hf)
    (by
      intro c hc hlab
      rw [List.mem_singleton] at hc
      subst hc
      exact absurd hlab (by decide))
